import Mathlib

set_option autoImplicit false

/-!
Shallow embedding of the chat workflow core in
`src/api/app/services/chat.py` (the whole repository's logic).

External collaborators are embedded as follows:

* The MongoDB collection `chatsCollection` is a sequence of records,
  each a pair of an `_id` string and a `Chat` document; `find`,
  `find_one`, `insert_one`, `update_one` (with and without upsert) and
  `delete_one` are given their pymongo semantics on that sequence
  (`find_one` / `update_one` / `delete_one` act on the first matching
  record).
* `bson.ObjectId.is_valid` on a string is true exactly for 24-character
  hexadecimal strings.
* The AI provider `get_ai_response` (service `gemini`, outside the core)
  is a function parameter producing an `AIResponse`; an invocation that
  reaches the provider and gets a response corresponds to applying that
  function.  Provider failures propagate unrecovered and are outside the
  embedded success path.
* `HTTPException(status_code=400)` is `ChatError.invalidArgument`,
  `HTTPException(status_code=404)` is `ChatError.notFound`.
-/

/-- Message type enum. Modelled from the spec: `app/models/chat` is not
under `src/`; spec section 3 gives `Message.type` the enum USER | AI. -/
inductive MessageType where
  | USER
  | AI
deriving DecidableEq, Repr

/-- Chat message. Modelled from the spec: `app/models/chat` is not under
`src/`; spec section 3 gives `Message = { content : string, type }`. -/
structure Message where
  content : String
  type : MessageType
deriving DecidableEq, Repr

/-- Code snapshot. Modelled from the spec: `app/models/chat` is not under
`src/`; spec section 3 gives `Code = { html, css, js }`, each a string,
empty at chat creation. -/
structure Code where
  html : String
  css : String
  js : String
deriving DecidableEq, Repr

/-- Chat document as stored (without its `_id`, which keys the store).
Modelled from the spec: `app/models/chat` is not under `src/`; spec
section 3 gives `Chat = { id, userId, name, messages, code }` with
messages empty and code empty at creation. -/
structure Chat where
  userId : String
  name : String
  messages : List Message
  code : Code
deriving DecidableEq, Repr

/-- Prompt body for post-message. Modelled from the spec: spec section 3
gives `Prompt = { input : string }`. -/
structure Prompt where
  input : String
deriving DecidableEq, Repr

/-- Structured AI provider result. Modelled from the spec: spec section 6
gives `generate(promptText, sessionId) -> {explanation, html, css, js}`. -/
structure AIResponse where
  explanation : String
  html : String
  css : String
  js : String
deriving DecidableEq, Repr

/-- Error taxonomy of the service layer: `HTTPException` status 400
(invalid chat id) and 404 (chat absent). -/
inductive ChatError where
  | invalidArgument
  | notFound
deriving DecidableEq, Repr

/-- The chats collection: records in insertion order, each an `_id`
paired with the chat document. -/
abbrev Store := List (String × Chat)

/-- `bson.ObjectId.is_valid` on a string argument: exactly the
24-character hexadecimal strings are valid ids. -/
def ObjectId.isValid (s : String) : Bool :=
  s.length = 24 && s.toList.all (fun c =>
    c.isDigit || ('a' ≤ c && c ≤ 'f') || ('A' ≤ c && c ≤ 'F'))

/-- `chatsCollection.find({"userId": user_id})`: every record whose
document has the given owner, in store order. -/
def Store.find (store : Store) (user_id : String) : List (String × Chat) :=
  store.filter (fun p => p.2.userId = user_id)

/-- `chatsCollection.find_one({"_id": id})`: the first record with the
given id, or none. -/
def Store.findOne : Store → String → Option Chat
  | [], _ => none
  | (i, c) :: rest, id => if i = id then some c else Store.findOne rest id

/-- One `update_one` pass: rewrite the first record whose id matches with
`f`; the Bool reports whether a record matched. -/
def Store.updateFirst (id : String) (f : Chat → Chat) : Store → Store × Bool
  | [] => ([], false)
  | (i, c) :: rest =>
    if i = id then ((i, f c) :: rest, true)
    else
      let r := Store.updateFirst id f rest
      ((i, c) :: r.1, r.2)

/-- `chatsCollection.update_one({"_id": id}, update, upsert)`: pymongo
updates the first matching record and reports `matched_count`; with
`upsert` and no match it inserts the document obtained by applying the
update operators to the fresh document `{_id: id}` (here `upsertDoc`),
still reporting `matched_count = 0`. -/
def Store.updateOne (store : Store) (id : String) (f : Chat → Chat)
    (upsert : Bool) (upsertDoc : Chat) : Store × Nat :=
  let r := Store.updateFirst id f store
  if r.2 then (r.1, 1)
  else if upsert then (r.1 ++ [(id, upsertDoc)], 0) else (r.1, 0)

/-- One `delete_one` pass: drop the first record whose id matches; the
Bool reports whether a record was deleted. -/
def Store.deleteFirst (id : String) : Store → Store × Bool
  | [] => ([], false)
  | (i, c) :: rest =>
    if i = id then (rest, true)
    else
      let r := Store.deleteFirst id rest
      ((i, c) :: r.1, r.2)

/-- `chatsCollection.delete_one({"_id": id})`: drop the first matching
record, reporting `deleted_count`. -/
def Store.deleteOne (store : Store) (id : String) : Store × Nat :=
  let r := Store.deleteFirst id store
  if r.2 then (r.1, 1) else (r.1, 0)

/-- `get_chats_by_user_id`: run the owner query and return its results.
pymongo's `Collection.find` returns a cursor object, which is never
`None`; the embedding records this by wrapping the query result in
`some`, so the source's `if resp is None: raise 404` branch is the
`none` arm below and can never be taken. -/
def get_chats_by_user_id (store : Store) (user_id : String) :
    Except ChatError (List (String × Chat)) :=
  let resp : Option (List (String × Chat)) := some (Store.find store user_id)
  match resp with
  | none => Except.error ChatError.notFound
  | some chats => Except.ok chats

/-- `create_chat_by_user_id`: build `Chat(userId=user_id, name=name)`
(messages and code take their model defaults: empty), insert it, and
return the basic-chat payload `{_id: inserted_id, **chat}`.  The store
generates `inserted_id` on insert; the embedding passes it in. -/
def create_chat_by_user_id (store : Store) (inserted_id : String)
    (user_id : String) (name : String) : Store × (String × Chat) :=
  let chat : Chat :=
    { userId := user_id, name := name, messages := [],
      code := { html := "", css := "", js := "" } }
  (store ++ [(inserted_id, chat)], (inserted_id, chat))

/-- `create_chat_by_user_id` with the `name` argument omitted: the
source's signature defaults it to "New Chat". -/
def create_chat_by_user_id_defaultName (store : Store) (inserted_id : String)
    (user_id : String) : Store × (String × Chat) :=
  create_chat_by_user_id store inserted_id user_id "New Chat"

/-- `rename_chat_by_id`: reject malformed ids, `$set` the name on the
matching record (no upsert), 404 when `matched_count == 0`, else return
the success message. -/
def rename_chat_by_id (store : Store) (chat_id : String) (name : String) :
    Except ChatError (Store × String) :=
  if ObjectId.isValid chat_id = false then Except.error ChatError.invalidArgument
  else
    let resp := Store.updateOne store chat_id
      (fun c => { c with name := name }) false
      { userId := "", name := name, messages := [],
        code := { html := "", css := "", js := "" } }
    if resp.2 = 0 then Except.error ChatError.notFound
    else Except.ok (resp.1, "Chat renamed successfully.")

/-- `get_chat_by_id`: reject malformed ids, `find_one` by id, 404 when
absent, else return the full document. -/
def get_chat_by_id (store : Store) (chat_id : String) :
    Except ChatError Chat :=
  if ObjectId.isValid chat_id = false then Except.error ChatError.invalidArgument
  else
    match Store.findOne store chat_id with
    | none => Except.error ChatError.notFound
    | some chat => Except.ok chat

/-- `delete_chat_by_id`: reject malformed ids, `delete_one` by id, 404
when `deleted_count == 0`, else return the success message. -/
def delete_chat_by_id (store : Store) (chat_id : String) :
    Except ChatError (Store × String) :=
  if ObjectId.isValid chat_id = false then Except.error ChatError.invalidArgument
  else
    let resp := Store.deleteOne store chat_id
    if resp.2 = 0 then Except.error ChatError.notFound
    else Except.ok (resp.1, "Chat deleted successfully.")

/-- The `update_data` dictionary built by `post_message_by_chat_id`:
`$push` of the two messages plus the conditional `$set` entries
(`code.html` / `code.css` / `code.js` when non-blank after `strip()`,
`name` when the stored name is still "New Chat").  An absent `$set`
entry is `none`; the source's removal of an empty `$set` dict is
semantically the all-`none` case. -/
structure UpdateData where
  pushMessages : List Message
  setHtml : Option String
  setCss : Option String
  setJs : Option String
  setName : Option String
deriving DecidableEq, Repr

/-- Blankness test of the source's `if code.html.strip():` guards:
Python's `s.strip()` is falsy exactly when every character of `s` is
whitespace (in particular when `s` is empty). -/
def isBlank (s : String) : Bool :=
  s.toList.all (fun c => c.isWhitespace)

/-- Build the `update_data` of `post_message_by_chat_id` from the AI
response, the prompt text and the stored chat. -/
def postUpdate (response : AIResponse) (promptInput : String) (chat : Chat) :
    UpdateData :=
  { pushMessages :=
      [ { content := promptInput, type := MessageType.USER },
        { content := response.explanation, type := MessageType.AI } ]
    setHtml := if isBlank response.html then none else some response.html
    setCss := if isBlank response.css then none else some response.css
    setJs := if isBlank response.js then none else some response.js
    setName := if chat.name = "New Chat" then some promptInput else none }

/-- Apply an `update_data` dictionary to a chat document: `$push` appends
to `messages`, each present `$set` entry overwrites its field. -/
def applyUpdate (u : UpdateData) (c : Chat) : Chat :=
  { userId := c.userId
    name := u.setName.getD c.name
    messages := c.messages ++ u.pushMessages
    code :=
      { html := u.setHtml.getD c.code.html
        css := u.setCss.getD c.code.css
        js := u.setJs.getD c.code.js } }

/-- The fresh document an upsert starts from when the filter
`{_id: chat_id}` matched nothing: only `_id` is present, so every other
field is at its empty default. -/
def emptyChat : Chat :=
  { userId := "", name := "", messages := [],
    code := { html := "", css := "", js := "" } }

/-- The payload returned by a successful `post_message_by_chat_id`:
resulting name, the AI message, and the code computed from the provider
response. -/
structure PostMessageResult where
  name : String
  message : Message
  code : Code
deriving DecidableEq, Repr

/-- `post_message_by_chat_id`: reject malformed ids; call the AI provider
with the prompt text and the chat id; build the USER and AI messages and
the `Code` from the response; `find_one` the chat (404 when absent);
build `update_data`; `update_one` with upsert; 404 when
`matched_count == 0`; return the resulting name (`$set` name if present,
else the previously stored name), the AI message and the computed code. -/
def post_message_by_chat_id (store : Store)
    (get_ai_response : String → String → AIResponse)
    (prompt : Prompt) (chat_id : String) :
    Except ChatError (Store × PostMessageResult) :=
  if ObjectId.isValid chat_id = false then Except.error ChatError.invalidArgument
  else
    let response := get_ai_response prompt.input chat_id
    let ai_message : Message :=
      { content := response.explanation, type := MessageType.AI }
    let code : Code :=
      { html := response.html, css := response.css, js := response.js }
    match Store.findOne store chat_id with
    | none => Except.error ChatError.notFound
    | some chat =>
      let update_data := postUpdate response prompt.input chat
      let result := Store.updateOne store chat_id (applyUpdate update_data)
        true (applyUpdate update_data emptyChat)
      if result.2 = 0 then Except.error ChatError.notFound
      else
        Except.ok (result.1,
          { name := update_data.setName.getD chat.name
            message := ai_message
            code := code })

/-! ### Store lemmas -/

theorem findOne_updateFirst (id : String) (f : Chat → Chat) :
    ∀ store : Store,
      Store.findOne (Store.updateFirst id f store).1 id =
        (Store.findOne store id).map f
  | [] => rfl
  | (i, c) :: rest => by
    by_cases h : i = id
    · simp [Store.updateFirst, Store.findOne, h]
    · simp [Store.updateFirst, Store.findOne, h, findOne_updateFirst id f rest]

theorem updateFirst_matched (id : String) (f : Chat → Chat) :
    ∀ store : Store,
      (Store.updateFirst id f store).2 = (Store.findOne store id).isSome
  | [] => rfl
  | (i, c) :: rest => by
    by_cases h : i = id
    · simp [Store.updateFirst, Store.findOne, h]
    · simp [Store.updateFirst, Store.findOne, h, updateFirst_matched id f rest]

theorem deleteFirst_deleted (id : String) :
    ∀ store : Store,
      (Store.deleteFirst id store).2 = (Store.findOne store id).isSome
  | [] => rfl
  | (i, c) :: rest => by
    by_cases h : i = id
    · simp [Store.deleteFirst, Store.findOne, h]
    · simp [Store.deleteFirst, Store.findOne, h, deleteFirst_deleted id rest]

/-! ### Characterization lemmas for the services -/

theorem rename_ok_spec (store : Store) (chat_id name : String) (chat : Chat)
    (hvalid : ObjectId.isValid chat_id = true)
    (hchat : Store.findOne store chat_id = some chat) :
    rename_chat_by_id store chat_id name =
      Except.ok
        ((Store.updateFirst chat_id (fun c => { c with name := name }) store).1,
          "Chat renamed successfully.") := by
  unfold rename_chat_by_id Store.updateOne
  rw [hvalid]
  simp [updateFirst_matched, hchat]

theorem rename_notFound (store : Store) (chat_id name : String)
    (hvalid : ObjectId.isValid chat_id = true)
    (hnone : Store.findOne store chat_id = none) :
    rename_chat_by_id store chat_id name = Except.error ChatError.notFound := by
  unfold rename_chat_by_id Store.updateOne
  rw [hvalid]
  simp [updateFirst_matched, hnone]

theorem get_ok_spec (store : Store) (chat_id : String) (chat : Chat)
    (hvalid : ObjectId.isValid chat_id = true)
    (hchat : Store.findOne store chat_id = some chat) :
    get_chat_by_id store chat_id = Except.ok chat := by
  unfold get_chat_by_id
  rw [hvalid]
  simp [hchat]

theorem get_notFound (store : Store) (chat_id : String)
    (hvalid : ObjectId.isValid chat_id = true)
    (hnone : Store.findOne store chat_id = none) :
    get_chat_by_id store chat_id = Except.error ChatError.notFound := by
  unfold get_chat_by_id
  rw [hvalid]
  simp [hnone]

theorem delete_notFound (store : Store) (chat_id : String)
    (hvalid : ObjectId.isValid chat_id = true)
    (hnone : Store.findOne store chat_id = none) :
    delete_chat_by_id store chat_id = Except.error ChatError.notFound := by
  unfold delete_chat_by_id Store.deleteOne
  rw [hvalid]
  simp [deleteFirst_deleted, hnone]

theorem post_message_ok_spec (store : Store)
    (ai : String → String → AIResponse) (prompt : Prompt) (chat_id : String)
    (chat : Chat)
    (hvalid : ObjectId.isValid chat_id = true)
    (hchat : Store.findOne store chat_id = some chat) :
    post_message_by_chat_id store ai prompt chat_id =
      Except.ok
        ((Store.updateFirst chat_id
            (applyUpdate (postUpdate (ai prompt.input chat_id) prompt.input chat))
            store).1,
          { name :=
              (postUpdate (ai prompt.input chat_id) prompt.input chat).setName.getD
                chat.name
            message :=
              { content := (ai prompt.input chat_id).explanation
                type := MessageType.AI }
            code :=
              { html := (ai prompt.input chat_id).html
                css := (ai prompt.input chat_id).css
                js := (ai prompt.input chat_id).js } }) := by
  unfold post_message_by_chat_id Store.updateOne
  rw [hvalid]
  simp [hchat, updateFirst_matched]

theorem post_message_notFound (store : Store)
    (ai : String → String → AIResponse) (prompt : Prompt) (chat_id : String)
    (hvalid : ObjectId.isValid chat_id = true)
    (hnone : Store.findOne store chat_id = none) :
    post_message_by_chat_id store ai prompt chat_id =
      Except.error ChatError.notFound := by
  unfold post_message_by_chat_id
  rw [hvalid]
  simp [hnone]

theorem post_message_ok_inv {store : Store}
    {ai : String → String → AIResponse} {prompt : Prompt} {chat_id : String}
    {store₂ : Store} {res : PostMessageResult}
    (h : post_message_by_chat_id store ai prompt chat_id =
      Except.ok (store₂, res)) :
    ObjectId.isValid chat_id = true ∧
      ∃ chat, Store.findOne store chat_id = some chat := by
  by_cases hv : ObjectId.isValid chat_id = false
  · unfold post_message_by_chat_id at h
    rw [if_pos hv] at h
    exact absurd h (by simp)
  · have hv2 : ObjectId.isValid chat_id = true := by
      cases hb : ObjectId.isValid chat_id
      · exact absurd hb hv
      · rfl
    refine ⟨hv2, ?_⟩
    cases hc : Store.findOne store chat_id with
    | none =>
      rw [post_message_notFound store ai prompt chat_id hv2 hc] at h
      exact absurd h (by simp)
    | some chat => exact ⟨chat, rfl⟩

theorem rename_ok_inv {store : Store} {chat_id name : String}
    {store₂ : Store} {msg : String}
    (h : rename_chat_by_id store chat_id name = Except.ok (store₂, msg)) :
    ObjectId.isValid chat_id = true ∧
      (∃ chat, Store.findOne store chat_id = some chat) ∧
      store₂ =
        (Store.updateFirst chat_id (fun c => { c with name := name }) store).1 := by
  by_cases hv : ObjectId.isValid chat_id = false
  · unfold rename_chat_by_id at h
    rw [if_pos hv] at h
    exact absurd h (by simp)
  · have hv2 : ObjectId.isValid chat_id = true := by
      cases hb : ObjectId.isValid chat_id
      · exact absurd hb hv
      · rfl
    cases hc : Store.findOne store chat_id with
    | none =>
      rw [rename_notFound store chat_id name hv2 hc] at h
      exact absurd h (by simp)
    | some chat =>
      rw [rename_ok_spec store chat_id name chat hv2 hc] at h
      refine ⟨hv2, ⟨chat, rfl⟩, ?_⟩
      cases h
      rfl

theorem getD_if_none {α : Type} (c : Prop) [Decidable c] (x d : α) :
    (if c then none else some x).getD d = if c then d else x := by
  split_ifs <;> rfl

theorem getD_if_some {α : Type} (c : Prop) [Decidable c] (x d : α) :
    (if c then some x else none).getD d = if c then x else d := by
  split_ifs <;> rfl

/-! ### Claims -/

/-- C5: for every malformed chat id, each of the id-taking operations —
rename, get, delete and post-message — fails with InvalidArgument, and it
does so for every store content and every AI provider behaviour (the
universally quantified `store` and `ai` show the outcome is fixed before
any storage access or provider call); InvalidArgument is distinct from
NotFound. -/
theorem invalid_id_rejected_everywhere (store : Store)
    (ai : String → String → AIResponse) (prompt : Prompt)
    (chat_id name : String)
    (hmal : ObjectId.isValid chat_id = false) :
    rename_chat_by_id store chat_id name = Except.error ChatError.invalidArgument ∧
    get_chat_by_id store chat_id = Except.error ChatError.invalidArgument ∧
    delete_chat_by_id store chat_id = Except.error ChatError.invalidArgument ∧
    post_message_by_chat_id store ai prompt chat_id =
      Except.error ChatError.invalidArgument ∧
    ChatError.invalidArgument ≠ ChatError.notFound := by
  refine ⟨?_, ?_, ?_, ?_, by decide⟩
  · simp [rename_chat_by_id, hmal]
  · simp [get_chat_by_id, hmal]
  · simp [delete_chat_by_id, hmal]
  · simp [post_message_by_chat_id, hmal]

/-- Witness for C5 at the malformed id "bad" over the empty store. -/
theorem invalid_id_rejected_everywhere_witness :
    rename_chat_by_id [] "bad" "x" = Except.error ChatError.invalidArgument ∧
    get_chat_by_id [] "bad" = Except.error ChatError.invalidArgument ∧
    delete_chat_by_id [] "bad" = Except.error ChatError.invalidArgument ∧
    post_message_by_chat_id []
        (fun _ _ => { explanation := "e", html := "h", css := "c", js := "j" })
        { input := "p" } "bad" =
      Except.error ChatError.invalidArgument ∧
    ChatError.invalidArgument ≠ ChatError.notFound :=
  invalid_id_rejected_everywhere []
    (fun _ _ => { explanation := "e", html := "h", css := "c", js := "j" })
    { input := "p" } "bad" "x" (by decide)

/-- C9: create-chat always succeeds: it appends a record carrying the
store-generated id, the given userId, the given name, empty messages and
empty code, and returns that record as the summary; when the name
argument is omitted the source's default gives "New Chat". -/
theorem create_chat_spec (store : Store) (inserted_id user_id name : String) :
    create_chat_by_user_id store inserted_id user_id name =
      (store ++ [(inserted_id,
          { userId := user_id, name := name, messages := [],
            code := { html := "", css := "", js := "" } })],
        (inserted_id,
          { userId := user_id, name := name, messages := [],
            code := { html := "", css := "", js := "" } })) ∧
    create_chat_by_user_id_defaultName store inserted_id user_id =
      create_chat_by_user_id store inserted_id user_id "New Chat" :=
  ⟨rfl, rfl⟩

/-- C6: post-message has no partial-success outcome: every invocation
either fails with an error — in the embedding an error result carries no
store, i.e. nothing was persisted — or succeeds having applied the whole
update (both messages appended and every conditional field set) in the
single `update_one` against the matched record. -/
theorem post_message_all_or_nothing (store : Store)
    (ai : String → String → AIResponse) (prompt : Prompt) (chat_id : String) :
    (∃ e, post_message_by_chat_id store ai prompt chat_id = Except.error e) ∨
    (∃ chat, Store.findOne store chat_id = some chat ∧
      post_message_by_chat_id store ai prompt chat_id =
        Except.ok
          ((Store.updateFirst chat_id
              (applyUpdate
                (postUpdate (ai prompt.input chat_id) prompt.input chat))
              store).1,
            { name :=
                (postUpdate (ai prompt.input chat_id) prompt.input
                    chat).setName.getD chat.name
              message :=
                { content := (ai prompt.input chat_id).explanation
                  type := MessageType.AI }
              code :=
                { html := (ai prompt.input chat_id).html
                  css := (ai prompt.input chat_id).css
                  js := (ai prompt.input chat_id).js } })) := by
  by_cases hv : ObjectId.isValid chat_id = true
  · cases hc : Store.findOne store chat_id with
    | none =>
      exact Or.inl ⟨ChatError.notFound,
        post_message_notFound store ai prompt chat_id hv hc⟩
    | some chat =>
      exact Or.inr ⟨chat, rfl,
        post_message_ok_spec store ai prompt chat_id chat hv hc⟩
  · have hv2 : ObjectId.isValid chat_id = false := by
      cases hb : ObjectId.isValid chat_id
      · rfl
      · exact absurd hb hv
    exact Or.inl ⟨ChatError.invalidArgument,
      by simp [post_message_by_chat_id, hv2]⟩

/-- C1: on every successful post-message against a stored chat, each
stored code field (html/css/js) takes the provider's returned value
exactly when that value is non-blank (its whitespace-trimmed form is
non-empty); a blank provider value leaves the previously stored field
unchanged. -/
theorem post_message_code_blank_preserving (store : Store)
    (ai : String → String → AIResponse) (prompt : Prompt) (chat_id : String)
    (chat : Chat) (store₂ : Store) (res : PostMessageResult)
    (hchat : Store.findOne store chat_id = some chat)
    (hok : post_message_by_chat_id store ai prompt chat_id =
      Except.ok (store₂, res)) :
    (Store.findOne store₂ chat_id).map Chat.code =
      some
        { html := if isBlank (ai prompt.input chat_id).html
            then chat.code.html else (ai prompt.input chat_id).html
          css := if isBlank (ai prompt.input chat_id).css
            then chat.code.css else (ai prompt.input chat_id).css
          js := if isBlank (ai prompt.input chat_id).js
            then chat.code.js else (ai prompt.input chat_id).js } := by
  obtain ⟨hv, -⟩ := post_message_ok_inv hok
  have hspec := post_message_ok_spec store ai prompt chat_id chat hv hchat
  rw [hok] at hspec
  simp only [Except.ok.injEq, Prod.mk.injEq] at hspec
  obtain ⟨h1, h2⟩ := hspec
  subst h1
  rw [findOne_updateFirst, hchat]
  simp [applyUpdate, postUpdate, getD_if_none]

/-- Witness for C1: a chat storing code ("H0","C0","J0") receives a
provider response with non-blank html and blank css/js: html updates,
css and js keep their stored values. -/
theorem post_message_code_blank_preserving_witness :
    (Store.findOne
        [("0123456789abcdef01234567",
          { userId := "u1", name := "My Chat",
            messages := [{ content := "hi", type := MessageType.USER },
                         { content := "expl", type := MessageType.AI }],
            code := { html := "<p>new</p>", css := "C0", js := "J0" } })]
        "0123456789abcdef01234567").map Chat.code =
      some
        { html := if isBlank "<p>new</p>" then "H0" else "<p>new</p>"
          css := if isBlank "  " then "C0" else "  "
          js := if isBlank "" then "J0" else "" } :=
  post_message_code_blank_preserving
    [("0123456789abcdef01234567",
      { userId := "u1", name := "My Chat", messages := [],
        code := { html := "H0", css := "C0", js := "J0" } })]
    (fun _ _ =>
      { explanation := "expl", html := "<p>new</p>", css := "  ", js := "" })
    { input := "hi" } "0123456789abcdef01234567"
    { userId := "u1", name := "My Chat", messages := [],
      code := { html := "H0", css := "C0", js := "J0" } }
    [("0123456789abcdef01234567",
      { userId := "u1", name := "My Chat",
        messages := [{ content := "hi", type := MessageType.USER },
                     { content := "expl", type := MessageType.AI }],
        code := { html := "<p>new</p>", css := "C0", js := "J0" } })]
    { name := "My Chat",
      message := { content := "expl", type := MessageType.AI },
      code := { html := "<p>new</p>", css := "  ", js := "" } }
    rfl rfl

/-- C3: on every successful post-message against a stored chat, the
chat's message sequence gains exactly two entries, appended in order: a
USER message carrying the prompt text, then an AI message carrying the
provider's explanation. -/
theorem post_message_appends_user_then_ai (store : Store)
    (ai : String → String → AIResponse) (prompt : Prompt) (chat_id : String)
    (chat : Chat) (store₂ : Store) (res : PostMessageResult)
    (hchat : Store.findOne store chat_id = some chat)
    (hok : post_message_by_chat_id store ai prompt chat_id =
      Except.ok (store₂, res)) :
    (Store.findOne store₂ chat_id).map Chat.messages =
      some (chat.messages ++
        [ { content := prompt.input, type := MessageType.USER },
          { content := (ai prompt.input chat_id).explanation,
            type := MessageType.AI } ]) := by
  obtain ⟨hv, -⟩ := post_message_ok_inv hok
  have hspec := post_message_ok_spec store ai prompt chat_id chat hv hchat
  rw [hok] at hspec
  simp only [Except.ok.injEq, Prod.mk.injEq] at hspec
  obtain ⟨h1, h2⟩ := hspec
  subst h1
  rw [findOne_updateFirst, hchat]
  simp [applyUpdate, postUpdate]

/-- Witness for C3: posting "hi" appends [USER "hi", AI "expl"] to the
stored message list. -/
theorem post_message_appends_user_then_ai_witness :
    (Store.findOne
        [("0123456789abcdef01234567",
          { userId := "u1", name := "My Chat",
            messages := [{ content := "old", type := MessageType.USER },
                         { content := "hi", type := MessageType.USER },
                         { content := "expl", type := MessageType.AI }],
            code := { html := "H0", css := "C0", js := "J0" } })]
        "0123456789abcdef01234567").map Chat.messages =
      some ([{ content := "old", type := MessageType.USER }] ++
        [ { content := "hi", type := MessageType.USER },
          { content := "expl", type := MessageType.AI } ]) :=
  post_message_appends_user_then_ai
    [("0123456789abcdef01234567",
      { userId := "u1", name := "My Chat",
        messages := [{ content := "old", type := MessageType.USER }],
        code := { html := "H0", css := "C0", js := "J0" } })]
    (fun _ _ => { explanation := "expl", html := "", css := "", js := "" })
    { input := "hi" } "0123456789abcdef01234567"
    { userId := "u1", name := "My Chat",
      messages := [{ content := "old", type := MessageType.USER }],
      code := { html := "H0", css := "C0", js := "J0" } }
    [("0123456789abcdef01234567",
      { userId := "u1", name := "My Chat",
        messages := [{ content := "old", type := MessageType.USER },
                     { content := "hi", type := MessageType.USER },
                     { content := "expl", type := MessageType.AI }],
        code := { html := "H0", css := "C0", js := "J0" } })]
    { name := "My Chat",
      message := { content := "expl", type := MessageType.AI },
      code := { html := "", css := "", js := "" } }
    rfl rfl

/-- C7: every successful post-message returns the resulting name (the
prompt text when the auto-rename applied, else the prior stored name),
the AI message, and the code snapshot taken verbatim from the provider's
response rather than from a re-read of storage: when the provider's css
is blank the response still echoes that blank value while the stored css
keeps its prior value. -/
theorem post_message_response_payload (store : Store)
    (ai : String → String → AIResponse) (prompt : Prompt) (chat_id : String)
    (chat : Chat) (store₂ : Store) (res : PostMessageResult)
    (hchat : Store.findOne store chat_id = some chat)
    (hok : post_message_by_chat_id store ai prompt chat_id =
      Except.ok (store₂, res)) :
    res.name = (if chat.name = "New Chat" then prompt.input else chat.name) ∧
    res.message =
      { content := (ai prompt.input chat_id).explanation,
        type := MessageType.AI } ∧
    res.code =
      { html := (ai prompt.input chat_id).html
        css := (ai prompt.input chat_id).css
        js := (ai prompt.input chat_id).js } ∧
    (isBlank (ai prompt.input chat_id).css = true →
      (Store.findOne store₂ chat_id).map (fun c => c.code.css) =
        some chat.code.css) := by
  obtain ⟨hv, -⟩ := post_message_ok_inv hok
  have hspec := post_message_ok_spec store ai prompt chat_id chat hv hchat
  rw [hok] at hspec
  simp only [Except.ok.injEq, Prod.mk.injEq] at hspec
  obtain ⟨h1, h2⟩ := hspec
  subst h1
  subst h2
  refine ⟨?_, rfl, rfl, ?_⟩
  · simp [postUpdate, getD_if_some]
  · intro hblank
    rw [findOne_updateFirst, hchat]
    simp [applyUpdate, postUpdate, hblank]

/-- Witness for C7: a post whose provider css is blank returns the prior
name, the AI message and the provider's code verbatim, while the stored
css keeps its previous value. -/
theorem post_message_response_payload_witness :
    "Styled" = (if "Styled" = "New Chat" then "style it" else "Styled") ∧
    ({ content := "done", type := MessageType.AI } : Message) =
      { content := "done", type := MessageType.AI } ∧
    ({ html := "<div>", css := "  ", js := "x()" } : Code) =
      { html := "<div>", css := "  ", js := "x()" } ∧
    (isBlank "  " = true →
      (Store.findOne
          [("0123456789abcdef01234567",
            { userId := "u1", name := "Styled",
              messages := [{ content := "style it", type := MessageType.USER },
                           { content := "done", type := MessageType.AI }],
              code := { html := "<div>", css := "C0", js := "x()" } })]
          "0123456789abcdef01234567").map (fun c => c.code.css) =
        some "C0") :=
  post_message_response_payload
    [("0123456789abcdef01234567",
      { userId := "u1", name := "Styled", messages := [],
        code := { html := "H0", css := "C0", js := "J0" } })]
    (fun _ _ =>
      { explanation := "done", html := "<div>", css := "  ", js := "x()" })
    { input := "style it" } "0123456789abcdef01234567"
    { userId := "u1", name := "Styled", messages := [],
      code := { html := "H0", css := "C0", js := "J0" } }
    [("0123456789abcdef01234567",
      { userId := "u1", name := "Styled",
        messages := [{ content := "style it", type := MessageType.USER },
                     { content := "done", type := MessageType.AI }],
        code := { html := "<div>", css := "C0", js := "x()" } })]
    { name := "Styled",
      message := { content := "done", type := MessageType.AI },
      code := { html := "<div>", css := "  ", js := "x()" } }
    rfl rfl

/-- C2 counterexample: the auto-rename is keyed on the stored name
still being "New Chat", not on being the first prompt.  A fresh chat
named "New Chat" is posted the prompt "New Chat" (so the name is set to
the first prompt's text and remains "New Chat"), and then the second
posted prompt "make a site" renames the chat again — refuting "a second
posted prompt never renames the chat automatically". -/
theorem second_prompt_renames_counterexample :
    post_message_by_chat_id
        [("0123456789abcdef01234567",
          { userId := "u1", name := "New Chat", messages := [],
            code := { html := "", css := "", js := "" } })]
        (fun _ _ => { explanation := "ok", html := "", css := "", js := "" })
        { input := "New Chat" } "0123456789abcdef01234567" =
      Except.ok
        ([("0123456789abcdef01234567",
            { userId := "u1", name := "New Chat",
              messages := [{ content := "New Chat", type := MessageType.USER },
                           { content := "ok", type := MessageType.AI }],
              code := { html := "", css := "", js := "" } })],
          { name := "New Chat",
            message := { content := "ok", type := MessageType.AI },
            code := { html := "", css := "", js := "" } }) ∧
    post_message_by_chat_id
        [("0123456789abcdef01234567",
          { userId := "u1", name := "New Chat",
            messages := [{ content := "New Chat", type := MessageType.USER },
                         { content := "ok", type := MessageType.AI }],
            code := { html := "", css := "", js := "" } })]
        (fun _ _ => { explanation := "ok", html := "", css := "", js := "" })
        { input := "make a site" } "0123456789abcdef01234567" =
      Except.ok
        ([("0123456789abcdef01234567",
            { userId := "u1", name := "make a site",
              messages := [{ content := "New Chat", type := MessageType.USER },
                           { content := "ok", type := MessageType.AI },
                           { content := "make a site", type := MessageType.USER },
                           { content := "ok", type := MessageType.AI }],
              code := { html := "", css := "", js := "" } })],
          { name := "make a site",
            message := { content := "ok", type := MessageType.AI },
            code := { html := "", css := "", js := "" } }) ∧
    "make a site" ≠ "New Chat" :=
  ⟨rfl, rfl, by decide⟩

/-- C2 amended: a chat's name defaults to "New Chat" at creation, and a
successful posted prompt renames the chat to the prompt's exact text
precisely when the currently stored name is still "New Chat"; hence a
second prompt renames the chat only if the stored name is still the
sentinel (as when the first prompt's text was itself "New Chat"), and
never when the first prompt already installed a different name. -/
theorem rename_on_prompt_iff_sentinel (store store₀ : Store)
    (ai : String → String → AIResponse) (prompt : Prompt)
    (chat_id inserted_id user_id : String) (chat : Chat)
    (store₂ : Store) (res : PostMessageResult)
    (hchat : Store.findOne store chat_id = some chat)
    (hok : post_message_by_chat_id store ai prompt chat_id =
      Except.ok (store₂, res)) :
    (create_chat_by_user_id_defaultName store₀ inserted_id user_id).2.2.name =
      "New Chat" ∧
    (Store.findOne store₂ chat_id).map Chat.name =
      some (if chat.name = "New Chat" then prompt.input else chat.name) := by
  obtain ⟨hv, -⟩ := post_message_ok_inv hok
  have hspec := post_message_ok_spec store ai prompt chat_id chat hv hchat
  rw [hok] at hspec
  simp only [Except.ok.injEq, Prod.mk.injEq] at hspec
  obtain ⟨h1, h2⟩ := hspec
  subst h1
  refine ⟨rfl, ?_⟩
  rw [findOne_updateFirst, hchat]
  simp [applyUpdate, postUpdate, getD_if_some]

/-- Witness for the amended C2: a chat whose stored name is "Site" is
posted a prompt; the stored name stays "Site". -/
theorem rename_on_prompt_iff_sentinel_witness :
    (create_chat_by_user_id_defaultName [] "0123456789abcdef01234567"
        "u1").2.2.name = "New Chat" ∧
    (Store.findOne
        [("aaaaaaaaaaaaaaaaaaaaaaaa",
          { userId := "u1", name := "Site",
            messages := [{ content := "hi", type := MessageType.USER },
                         { content := "ok", type := MessageType.AI }],
            code := { html := "", css := "", js := "" } })]
        "aaaaaaaaaaaaaaaaaaaaaaaa").map Chat.name =
      some (if "Site" = "New Chat" then "hi" else "Site") :=
  rename_on_prompt_iff_sentinel
    [("aaaaaaaaaaaaaaaaaaaaaaaa",
      { userId := "u1", name := "Site", messages := [],
        code := { html := "", css := "", js := "" } })]
    []
    (fun _ _ => { explanation := "ok", html := "", css := "", js := "" })
    { input := "hi" } "aaaaaaaaaaaaaaaaaaaaaaaa" "0123456789abcdef01234567" "u1"
    { userId := "u1", name := "Site", messages := [],
      code := { html := "", css := "", js := "" } }
    [("aaaaaaaaaaaaaaaaaaaaaaaa",
      { userId := "u1", name := "Site",
        messages := [{ content := "hi", type := MessageType.USER },
                     { content := "ok", type := MessageType.AI }],
        code := { html := "", css := "", js := "" } })]
    { name := "Site",
      message := { content := "ok", type := MessageType.AI },
      code := { html := "", css := "", js := "" } }
    rfl rfl

/-- C4 counterexample: the malformed id "bad" matches no existing
record, yet every id-taking operation fails with InvalidArgument, not
NotFound — refuting the claim for arbitrary non-matching strings. -/
theorem missing_chat_notFound_counterexample :
    Store.findOne [] "bad" = none ∧
    rename_chat_by_id [] "bad" "x" = Except.error ChatError.invalidArgument ∧
    get_chat_by_id [] "bad" = Except.error ChatError.invalidArgument ∧
    delete_chat_by_id [] "bad" = Except.error ChatError.invalidArgument ∧
    post_message_by_chat_id []
        (fun _ _ => { explanation := "e", html := "", css := "", js := "" })
        { input := "p" } "bad" =
      Except.error ChatError.invalidArgument ∧
    ChatError.invalidArgument ≠ ChatError.notFound :=
  ⟨rfl, rfl, rfl, rfl, rfl, by decide⟩

/-- C4 amended: for every well-formed chatId (a valid store identifier)
that does not match an existing record, each of rename, get, delete and
post-message fails with NotFound and never silently succeeds. -/
theorem missing_chat_notFound (store : Store)
    (ai : String → String → AIResponse) (prompt : Prompt)
    (chat_id name : String)
    (hvalid : ObjectId.isValid chat_id = true)
    (hnone : Store.findOne store chat_id = none) :
    rename_chat_by_id store chat_id name = Except.error ChatError.notFound ∧
    get_chat_by_id store chat_id = Except.error ChatError.notFound ∧
    delete_chat_by_id store chat_id = Except.error ChatError.notFound ∧
    post_message_by_chat_id store ai prompt chat_id =
      Except.error ChatError.notFound :=
  ⟨rename_notFound store chat_id name hvalid hnone,
   get_notFound store chat_id hvalid hnone,
   delete_notFound store chat_id hvalid hnone,
   post_message_notFound store ai prompt chat_id hvalid hnone⟩

/-- Witness for the amended C4 at a well-formed id absent from a
non-empty store. -/
theorem missing_chat_notFound_witness :
    rename_chat_by_id
        [("aaaaaaaaaaaaaaaaaaaaaaaa",
          { userId := "u1", name := "Site", messages := [],
            code := { html := "", css := "", js := "" } })]
        "0123456789abcdef01234567" "x" = Except.error ChatError.notFound ∧
    get_chat_by_id
        [("aaaaaaaaaaaaaaaaaaaaaaaa",
          { userId := "u1", name := "Site", messages := [],
            code := { html := "", css := "", js := "" } })]
        "0123456789abcdef01234567" = Except.error ChatError.notFound ∧
    delete_chat_by_id
        [("aaaaaaaaaaaaaaaaaaaaaaaa",
          { userId := "u1", name := "Site", messages := [],
            code := { html := "", css := "", js := "" } })]
        "0123456789abcdef01234567" = Except.error ChatError.notFound ∧
    post_message_by_chat_id
        [("aaaaaaaaaaaaaaaaaaaaaaaa",
          { userId := "u1", name := "Site", messages := [],
            code := { html := "", css := "", js := "" } })]
        (fun _ _ => { explanation := "e", html := "", css := "", js := "" })
        { input := "p" } "0123456789abcdef01234567" =
      Except.error ChatError.notFound :=
  missing_chat_notFound
    [("aaaaaaaaaaaaaaaaaaaaaaaa",
      { userId := "u1", name := "Site", messages := [],
        code := { html := "", css := "", js := "" } })]
    (fun _ _ => { explanation := "e", html := "", css := "", js := "" })
    { input := "p" } "0123456789abcdef01234567" "x" (by decide) rfl

/-- C8: evaluating list-chats for a user with no matching records: the
underlying query yields an empty cursor — never an absent result — so
the source's 404 guard cannot fire and the operation returns the empty
collection instead of the NotFound its own error branch ("No chats found
for this user") intends. -/
theorem get_chats_no_match_returns_empty :
    get_chats_by_user_id
        [("aaaaaaaaaaaaaaaaaaaaaaaa",
          { userId := "u2", name := "Site", messages := [],
            code := { html := "", css := "", js := "" } })]
        "u1" = Except.ok [] := rfl

/-- C10: the auto-rename is decided solely by the stored name equalling
the sentinel "New Chat": after an explicit rename back to "New Chat", a
subsequent successful posted prompt sets the chat's name to that
prompt's text, both in the returned payload and in the store —
regardless of the messages already posted. -/
theorem rename_to_sentinel_rearms_autorename (store : Store)
    (ai : String → String → AIResponse) (prompt : Prompt) (chat_id : String)
    (store₂ : Store) (msg : String) (store₃ : Store) (res : PostMessageResult)
    (hren : rename_chat_by_id store chat_id "New Chat" =
      Except.ok (store₂, msg))
    (hpost : post_message_by_chat_id store₂ ai prompt chat_id =
      Except.ok (store₃, res)) :
    res.name = prompt.input ∧
    (Store.findOne store₃ chat_id).map Chat.name = some prompt.input := by
  obtain ⟨hv, ⟨chat, hc⟩, hstore₂⟩ := rename_ok_inv hren
  subst hstore₂
  have hc2 : Store.findOne
      (Store.updateFirst chat_id (fun c => { c with name := "New Chat" })
        store).1 chat_id = some { chat with name := "New Chat" } := by
    rw [findOne_updateFirst, hc]
    rfl
  have hspec := post_message_ok_spec _ ai prompt chat_id
    { chat with name := "New Chat" } hv hc2
  rw [hpost] at hspec
  simp only [Except.ok.injEq, Prod.mk.injEq] at hspec
  obtain ⟨h1, h2⟩ := hspec
  subst h1
  subst h2
  constructor
  · simp [postUpdate, getD_if_some]
  · rw [findOne_updateFirst, hc2]
    simp [applyUpdate, postUpdate, getD_if_some]

/-- Witness for C10: a chat named by an earlier prompt is renamed back
to "New Chat" and then posted "again": the chat takes the name
"again". -/
theorem rename_to_sentinel_rearms_autorename_witness :
    ({ name := "again",
       message := { content := "ok", type := MessageType.AI },
       code := { html := "", css := "", js := "" } } :
        PostMessageResult).name = "again" ∧
    (Store.findOne
        [("aaaaaaaaaaaaaaaaaaaaaaaa",
          { userId := "u1", name := "again",
            messages := [{ content := "First", type := MessageType.USER },
                         { content := "a", type := MessageType.AI },
                         { content := "again", type := MessageType.USER },
                         { content := "ok", type := MessageType.AI }],
            code := { html := "", css := "", js := "" } })]
        "aaaaaaaaaaaaaaaaaaaaaaaa").map Chat.name = some "again" :=
  rename_to_sentinel_rearms_autorename
    [("aaaaaaaaaaaaaaaaaaaaaaaa",
      { userId := "u1", name := "First",
        messages := [{ content := "First", type := MessageType.USER },
                     { content := "a", type := MessageType.AI }],
        code := { html := "", css := "", js := "" } })]
    (fun _ _ => { explanation := "ok", html := "", css := "", js := "" })
    { input := "again" } "aaaaaaaaaaaaaaaaaaaaaaaa"
    [("aaaaaaaaaaaaaaaaaaaaaaaa",
      { userId := "u1", name := "New Chat",
        messages := [{ content := "First", type := MessageType.USER },
                     { content := "a", type := MessageType.AI }],
        code := { html := "", css := "", js := "" } })]
    "Chat renamed successfully."
    [("aaaaaaaaaaaaaaaaaaaaaaaa",
      { userId := "u1", name := "again",
        messages := [{ content := "First", type := MessageType.USER },
                     { content := "a", type := MessageType.AI },
                     { content := "again", type := MessageType.USER },
                     { content := "ok", type := MessageType.AI }],
        code := { html := "", css := "", js := "" } })]
    { name := "again",
      message := { content := "ok", type := MessageType.AI },
      code := { html := "", css := "", js := "" } }
    rfl rfl
